import Mathlib

/-
  Verification of the ryujin approximate Riemann solver
  (src/source/riemann_solver.template.h) against its specification.

  The numeric kernel is embedded shallowly over the real numbers: every
  arithmetic expression of the C++ source is transcribed literally, with
  std::sqrt as Real.sqrt and ryujin::pow as real exponentiation (rpow).
  The SIMD compare_and_apply_mask value-selects become if-then-else over
  real comparisons.  Components of the repository that are declared in
  headers not present in the excerpt (newton.h, limiter.h, simd.h,
  problem_description.h) are modelled from the specification and marked
  as such in their doc comments.
-/

namespace Ryujin

noncomputable section

/-- Primitive (Riemann) state `[rho, u, p, a]` as used by the solver:
density, normal velocity, pressure, sound speed (spec section 3). -/
structure PrimitiveState where
  rho : ℝ
  u : ℝ
  p : ℝ
  a : ℝ

/-- Admissibility of a primitive state per the spec data model:
positive density and pressure; the sound speed of such a state is
positive as well. -/
def Admissible (s : PrimitiveState) : Prop :=
  0 < s.rho ∧ 0 < s.p ∧ 0 < s.a

/-- Modelled from the spec: `positive_part` of simd.h is not under src/;
spec section 7 describes it as the clamping operator used inside square
roots, `max(x, 0)`. -/
def positive_part (x : ℝ) : ℝ := max x 0

/-- Modelled from the spec: `negative_part` of simd.h is not under src/;
per spec section 4.6 it extracts the magnitude of the negative part,
`max(-x, 0)`. -/
def negative_part (x : ℝ) : ℝ := max (-x) 0

/-- Function `f` of riemann_solver.template.h (lines 34-65): the shock
branch for `p_star >= p` and the rarefaction (isentropic power law)
branch otherwise, selected by value as in the SIMD mask. -/
def f (gamma : ℝ) (s : PrimitiveState) (p_star : ℝ) : ℝ :=
  let radicand_inverse := (1/2) * s.rho * ((gamma + 1) * p_star + (gamma - 1) * s.p)
  let true_value := (p_star - s.p) / Real.sqrt radicand_inverse
  let exponent := (gamma - 1) * (1/2) * gamma⁻¹
  let factor := (p_star / s.p) ^ exponent - 1
  let false_value := factor * 2 * s.a * (gamma - 1)⁻¹
  if s.p ≤ p_star then true_value else false_value

/-- Function `df` of riemann_solver.template.h (lines 72-111): derivative
of `f` with the same branch selection. -/
def df (gamma : ℝ) (s : PrimitiveState) (p_star : ℝ) : ℝ :=
  let radicand_inverse := (1/2) * s.rho * ((gamma + 1) * p_star + (gamma - 1) * s.p)
  let denominator := p_star + (gamma - 1) * (gamma + 1)⁻¹ * s.p
  let true_value :=
    (denominator - (1/2) * (p_star - s.p)) / (denominator * Real.sqrt radicand_inverse)
  let exponent := (-1 - gamma) * (1/2) * gamma⁻¹
  let factor := (gamma - 1) * (1/2) * gamma⁻¹ * (p_star / s.p) ^ exponent / s.p
  let false_value := factor * 2 * s.a * (gamma - 1)⁻¹
  if s.p ≤ p_star then true_value else false_value

/-- Function `phi` of riemann_solver.template.h (lines 119-129):
`phi(p) = f(state_i, p) + f(state_j, p) + u_j - u_i`. -/
def phi (gamma : ℝ) (ri rj : PrimitiveState) (p : ℝ) : ℝ :=
  f gamma ri p + f gamma rj p + rj.u - ri.u

/-- Function `phi_of_p_max` of riemann_solver.template.h (lines 139-166):
specialized evaluation of `phi` at `p_max = max(p_i, p_j)` with both
operands inlined on the shock branch. -/
def phi_of_p_max (gamma : ℝ) (ri rj : PrimitiveState) : ℝ :=
  let p_max := max ri.p rj.p
  let radicand_inverse_i := (1/2) * ri.rho * ((gamma + 1) * p_max + (gamma - 1) * ri.p)
  let value_i := (p_max - ri.p) / Real.sqrt radicand_inverse_i
  let radicand_inverse_j := (1/2) * rj.rho * ((gamma + 1) * p_max + (gamma - 1) * rj.p)
  let value_j := (p_max - rj.p) / Real.sqrt radicand_inverse_j
  value_i + value_j + rj.u - ri.u

/-- Function `dphi` of riemann_solver.template.h (lines 174-181). -/
def dphi (gamma : ℝ) (ri rj : PrimitiveState) (p : ℝ) : ℝ :=
  df gamma ri p + df gamma rj p

/-- Function `lambda1_minus` of riemann_solver.template.h (lines 197-215):
left-going characteristic speed bound at pressure guess `p_star`. -/
def lambda1_minus (gamma : ℝ) (s : PrimitiveState) (p_star : ℝ) : ℝ :=
  let factor := (gamma + 1) * (1/2) * gamma⁻¹
  let tmp := positive_part ((p_star - s.p) / s.p)
  s.u - s.a * Real.sqrt (1 + factor * tmp)

/-- Function `lambda3_plus` of riemann_solver.template.h (lines 223-240):
right-going characteristic speed bound at pressure guess `p_star`. -/
def lambda3_plus (gamma : ℝ) (s : PrimitiveState) (p_star : ℝ) : ℝ :=
  let factor := (gamma + 1) * (1/2) * gamma⁻¹
  let tmp := positive_part ((p_star - s.p) / s.p)
  s.u + s.a * Real.sqrt (1 + factor * tmp)

/-- Function `compute_gap` of riemann_solver.template.h (lines 252-272):
returns the pair `(gap, lambda_max)` for a bracket `(p_1, p_2)`. -/
def compute_gap (gamma : ℝ) (ri rj : PrimitiveState) (p_1 p_2 : ℝ) : ℝ × ℝ :=
  let nu_11 := lambda1_minus gamma ri p_2
  let nu_12 := lambda1_minus gamma ri p_1
  let nu_31 := lambda3_plus gamma rj p_1
  let nu_32 := lambda3_plus gamma rj p_2
  (max |nu_32 - nu_31| |nu_12 - nu_11|,
   max (positive_part nu_32) (negative_part nu_11))

/-- Function `compute_lambda` of riemann_solver.template.h (lines
286-296): the same `lambda_max` as `compute_gap` without the gap. -/
def compute_lambda (gamma : ℝ) (ri rj : PrimitiveState) (p_star : ℝ) : ℝ :=
  max (positive_part (lambda3_plus gamma rj p_star))
      (negative_part (lambda1_minus gamma ri p_star))

/-- Function `p_star_two_rarefaction` of riemann_solver.template.h
(lines 307-339): closed-form two-rarefaction approximation of the star
pressure. -/
def p_star_two_rarefaction (gamma : ℝ) (ri rj : PrimitiveState) : ℝ :=
  let factor := (gamma - 1) * (1/2)
  let numerator := ri.a + rj.a - factor * (rj.u - ri.u)
  let denominator := ri.a * (ri.p / rj.p) ^ (-factor * gamma⁻¹) + rj.a
  let exponent := 2 * gamma * (gamma - 1)⁻¹
  rj.p * (numerator / denominator) ^ exponent

/-- Function `shock_and_expansion_density` of riemann_solver.template.h
(lines 351-379): shock- and expansion-branch density estimates at the
bracket endpoints. -/
def shock_and_expansion_density (gamma : ℝ) (p_min p_max rho_p_min rho_p_max p_1 p_2 : ℝ) :
    ℝ × ℝ × ℝ × ℝ :=
  let gm1_gp2 := (gamma - 1) * (gamma + 1)⁻¹
  let rho_p_min_shk := rho_p_min * (gm1_gp2 * p_min + p_1) / (gm1_gp2 * p_1 + p_min)
  let rho_p_max_shk := rho_p_min * (gm1_gp2 * p_max + p_1) / (gm1_gp2 * p_1 + p_max)
  let rho_p_min_exp := rho_p_min * (p_2 / p_min) ^ gamma⁻¹
  let rho_p_max_exp := rho_p_max * (p_2 / p_max) ^ gamma⁻¹
  (rho_p_min_shk, rho_p_max_shk, rho_p_min_exp, rho_p_max_exp)

/-- Function `compute_bounds` of riemann_solver.template.h (lines
527-654): density and entropy bounds `(rho_min, rho_max, s_min,
salpha_avg, salpha_flux)` for the greedy limiter search. -/
def compute_bounds (gamma : ℝ) (ri rj : PrimitiveState) (p_1 p_2 : ℝ) :
    ℝ × ℝ × ℝ × ℝ × ℝ :=
  let p_min := min ri.p rj.p
  let p_max := max ri.p rj.p
  let rho_p_min := if ri.p < rj.p then ri.rho else rj.rho
  let rho_p_max := if ri.p < rj.p then rj.rho else ri.rho
  let sed := shock_and_expansion_density gamma p_min p_max rho_p_min rho_p_max p_1 p_2
  let rho_min0 := min rho_p_min rho_p_max
  let rho_max0 := max rho_p_min rho_p_max
  let rho_min := min rho_min0 (min sed.2.2.1 sed.2.2.2)
  let rho_max := max rho_max0 (max sed.1 sed.2.1)
  let rho_e_i := ri.p * (gamma - 1)⁻¹
  let s_i := rho_e_i * ri.rho ^ (-gamma)
  let salpha_i := (rho_e_i * ri.rho) ^ (gamma + 1)⁻¹
  let rho_e_j := rj.p * (gamma - 1)⁻¹
  let s_j := rho_e_j * rj.rho ^ (-gamma)
  let salpha_j := (rho_e_j * rj.rho) ^ (gamma + 1)⁻¹
  let s_min := min s_i s_j
  (rho_min, rho_max, s_min,
   (1/2) * (salpha_i + salpha_j),
   (1/2) * (ri.u * salpha_i - rj.u * salpha_j))

/-- Modelled from the spec: the read-only configuration of the solver
(spec section 6).  The C++ declarations of these compile-time and
parameter-file constants live in riemann_solver.h and newton.h, which
are not under src/.  `machine_eps` models
`std::numeric_limits::epsilon()` used by the greedy density-contrast
guard; in exact real arithmetic its value is zero. -/
structure RiemannSolverConfig where
  gamma : ℝ
  newton_max_iter : ℕ
  newton_eps : ℝ
  greedy_dij : Bool
  greedy_threshold : ℝ
  greedy_relax_bounds : Bool
  machine_eps : ℝ

/-- Modelled from the spec: `quadratic_newton_step` of newton.h is not
under src/.  Spec section 4.5 describes it as a second-order Newton
update using `phi` and `dphi` at both bracket ends that simultaneously
tightens both ends while preserving the bracket ordering: it must not
allow the bracket to invert or expand.  We model the update as a Newton
step from each endpoint, clamped into the current bracket and ordered,
which realizes exactly the bracketing contract the spec demands. -/
def quadratic_newton_step (p_1 p_2 phi_p_1 phi_p_2 dphi_p_1 dphi_p_2 : ℝ) : ℝ × ℝ :=
  let l := p_1 - phi_p_1 / dphi_p_1
  let r := p_2 - phi_p_2 / dphi_p_2
  let lc := min (max l p_1) p_2
  let rc := min (max r p_1) p_2
  (min lc rc, max lc rc)

/-- State of the quadratic Newton refiner loop of
`RiemannSolver::compute` (riemann_solver.template.h lines 472-497):
bracket, current gap and wave-speed bound, iteration counter. -/
structure NewtonState where
  p1 : ℝ
  p2 : ℝ
  gap : ℝ
  lambda_max : ℝ
  iter : ℕ

/-- One iteration of the Newton loop body (riemann_solver.template.h
lines 482-496): apply `quadratic_newton_step` to the bracket and
recompute gap and lambda_max via `compute_gap`. -/
def newton_step (gamma : ℝ) (ri rj : PrimitiveState) (s : NewtonState) : NewtonState :=
  let q := quadratic_newton_step s.p1 s.p2
    (phi gamma ri rj s.p1) (phi gamma ri rj s.p2)
    (dphi gamma ri rj s.p1) (dphi gamma ri rj s.p2)
  let gl := compute_gap gamma ri rj q.1 q.2
  ⟨q.1, q.2, gl.1, gl.2, s.iter + 1⟩

/-- The Newton loop of `RiemannSolver::compute` (riemann_solver.template.h
lines 475-497), fuel-indexed: before each step the convergence test
`max(0, gap - eps) == 0` is checked; a step applies `newton_step`. -/
def newton_iterate (gamma eps : ℝ) (ri rj : PrimitiveState) :
    ℕ → NewtonState → NewtonState
  | 0, s => s
  | Nat.succ fuel, s =>
    if max 0 (s.gap - eps) = 0 then s
    else newton_iterate gamma eps ri rj fuel (newton_step gamma ri rj s)

/-- Upper bracket end `p_2` selected by `RiemannSolver::compute`
(riemann_solver.template.h lines 442-444) from the sign of
`phi(p_max)`. -/
def bracket_p2 (gamma : ℝ) (ri rj : PrimitiveState) : ℝ :=
  if phi_of_p_max gamma ri rj < 0 then p_star_two_rarefaction gamma ri rj
  else min (max ri.p rj.p) (p_star_two_rarefaction gamma ri rj)

/-- Lower bracket end `p_1` of `RiemannSolver::compute`
(riemann_solver.template.h lines 454-464), including the clamp
`p_1 <- p_2` when the selected `p_1` exceeds `p_2`. -/
def bracket_p1 (gamma : ℝ) (ri rj : PrimitiveState) : ℝ :=
  let raw := if phi_of_p_max gamma ri rj < 0 then max ri.p rj.p else min ri.p rj.p
  if raw ≤ bracket_p2 gamma ri rj then raw else bracket_p2 gamma ri rj

/-- Initial Newton state: the bracket from the initializer together with
its gap and wave-speed bound (riemann_solver.template.h lines 472-475). -/
def newton_init (gamma : ℝ) (ri rj : PrimitiveState) : NewtonState :=
  let p_1 := bracket_p1 gamma ri rj
  let p_2 := bracket_p2 gamma ri rj
  let gl := compute_gap gamma ri rj p_1 p_2
  ⟨p_1, p_2, gl.1, gl.2, 0⟩

/-- Final Newton state after at most `newton_max_iter` iterations. -/
def newton_final (cfg : RiemannSolverConfig) (ri rj : PrimitiveState) : NewtonState :=
  newton_iterate cfg.gamma cfg.newton_eps ri rj cfg.newton_max_iter
    (newton_init cfg.gamma ri rj)

/-- Result triple of `RiemannSolver::compute` (spec section 3,
EdgeResult).  The iteration count is an integer so that the sentinel -1
of the zero-iteration shortcut is representable; in the greedy
configuration the first two slots are abused to carry the bracket
`(p_1, p_2)`, exactly as in the source. -/
structure EdgeResult where
  lambda_max : ℝ
  p_star : ℝ
  iter : ℤ

/-- The two-state entry point `RiemannSolver::compute(riemann_data_i,
riemann_data_j)` of riemann_solver.template.h (lines 389-516): bracket
initialization, the zero-iteration shortcut, the quadratic Newton loop,
and the greedy-mode return of the unresolved bracket. -/
def compute (cfg : RiemannSolverConfig) (ri rj : PrimitiveState) : EdgeResult :=
  if cfg.newton_max_iter = 0 then
    ⟨compute_lambda cfg.gamma ri rj (bracket_p2 cfg.gamma ri rj),
     bracket_p2 cfg.gamma ri rj, -1⟩
  else
    let s := newton_final cfg ri rj
    if cfg.greedy_dij then ⟨s.p1, s.p2, (s.iter : ℤ)⟩
    else ⟨s.lambda_max, s.p2, (s.iter : ℤ)⟩

/-- Conserved state of size `dim + 2`: density, momentum vector, total
energy (spec section 3, ConservedState). -/
structure ConservedState (d : ℕ) where
  rho : ℝ
  m : Fin d → ℝ
  E : ℝ

/-- Modelled from the spec: `ProblemDescription<1>::pressure` is not
under src/; the inverse relation in initial_values.template.h line 117,
`E = p/(gamma - 1) + rho u^2 / 2`, fixes the ideal-gas pressure of a 1-D
state `(rho, m, E)` as `p = (gamma - 1)(E - m^2/(2 rho))`. -/
def pressure1 (gamma rho m E : ℝ) : ℝ :=
  (gamma - 1) * (E - (1/2) * m ^ 2 / rho)

/-- Modelled from the spec: `ProblemDescription<1>::speed_of_sound` is
not under src/; initial_values.template.h line 149 fixes
`a = sqrt(gamma p / rho)` for covolume `b = 0`. -/
def speed_of_sound1 (gamma rho m E : ℝ) : ℝ :=
  Real.sqrt (gamma * pressure1 gamma rho m E / rho)

/-- Modelled from the spec: the pressure of a multi-dimensional
conserved state, `p = (gamma - 1)(E - |m|^2/(2 rho))`, by the same
ideal-gas relation. -/
def pressureN {d : ℕ} (gamma : ℝ) (U : ConservedState d) : ℝ :=
  (gamma - 1) * (U.E - (1/2) * (∑ i, U.m i ^ 2) / U.rho)

/-- Function `riemann_data_from_state` of riemann_solver.template.h
(lines 664-683): projection of a conserved state onto the 1-D Riemann
problem along the unit direction `n_ij`, returning `[rho, u, p, a]`. -/
def riemann_data_from_state {d : ℕ} (gamma : ℝ) (U : ConservedState d)
    (n : Fin d → ℝ) : PrimitiveState :=
  let projected_momentum := ∑ i, n i * U.m i
  let perp := fun i => U.m i - projected_momentum * n i
  let rho_inverse := 1 / U.rho
  let E1 := U.E - (1/2) * (∑ i, perp i ^ 2) * rho_inverse
  { rho := U.rho
    u := projected_momentum * rho_inverse
    p := pressure1 gamma U.rho projected_momentum E1
    a := speed_of_sound1 gamma U.rho projected_momentum E1 }

/-- The density-contrast guard of the greedy path
(riemann_solver.template.h lines 715-722): the greedy minimizer runs
precisely when `max(0, rho_max * threshold - rho_min + eps)` is
nonzero. -/
def greedy_active (cfg : RiemannSolverConfig) (ri rj : PrimitiveState) : Prop :=
  max 0 (max ri.rho rj.rho * cfg.greedy_threshold
    - min ri.rho rj.rho + cfg.machine_eps) ≠ 0

/-- The greedy wave-speed bound `lambda_max` recomputed from the
unresolved bracket (riemann_solver.template.h line 706). -/
def greedy_lambda_max {d : ℕ} (cfg : RiemannSolverConfig)
    (U_i U_j : ConservedState d) (n : Fin d → ℝ) : ℝ :=
  let ri := riemann_data_from_state cfg.gamma U_i n
  let rj := riemann_data_from_state cfg.gamma U_j n
  compute_lambda cfg.gamma ri rj (compute cfg ri rj).p_star

/-- The tightened greedy wave speed `lambda_greedy = 1 /
lambda_greedy_inverse` (riemann_solver.template.h lines 730-766).  The
external limiter capability `Limiter::limit` and the flux
`ProblemDescription::f` are not under src/ and are taken as function
parameters (spec sections 4.8 and 2 treat them as external
collaborators); the bar state, the flux correction `P`, the bounds and
the inverse-wave-speed search window are assembled exactly as in the
source. -/
def lambda_greedy {d : ℕ}
    (limit : ℝ × ℝ × ℝ × ℝ × ℝ → ConservedState d → (Fin (d + 2) → ℝ) → ℝ → ℝ → ℝ)
    (flux : ConservedState d → Fin (d + 2) → Fin d → ℝ)
    (cfg : RiemannSolverConfig) (U_i U_j : ConservedState d)
    (n : Fin d → ℝ) (hd_i : ℝ) : ℝ :=
  let ri := riemann_data_from_state cfg.gamma U_i n
  let rj := riemann_data_from_state cfg.gamma U_j n
  let r := compute cfg ri rj
  let lam := compute_lambda cfg.gamma ri rj r.p_star
  let Ubar : ConservedState d :=
    ⟨(1/2) * (U_i.rho + U_j.rho), fun l => (1/2) * (U_i.m l + U_j.m l),
     (1/2) * (U_i.E + U_j.E)⟩
  let P : Fin (d + 2) → ℝ := fun k => ∑ l, (1/2) * (flux U_i k l - flux U_j k l) * n l
  let b0 := compute_bounds cfg.gamma ri rj r.lambda_max r.p_star
  let b := if cfg.greedy_relax_bounds then
      (b0.1, b0.2.1, b0.2.2.1 * (1 - hd_i), b0.2.2.2.1 * (1 - hd_i),
       b0.2.2.2.2 * (1 - hd_i))
    else b0
  let lambda_greedy_inverse := limit b Ubar P (1 / lam) (1000 / lam)
  1 / lambda_greedy_inverse

/-- The state-vector entry point `RiemannSolver::compute(U_i, U_j, n_ij,
hd_i)` of riemann_solver.template.h (lines 687-776): projection, the
non-greedy shortcut, the greedy density-contrast guard, and the greedy
minimization `min(lambda_greedy, lambda_max)`. -/
def compute_from_states {d : ℕ}
    (limit : ℝ × ℝ × ℝ × ℝ × ℝ → ConservedState d → (Fin (d + 2) → ℝ) → ℝ → ℝ → ℝ)
    (flux : ConservedState d → Fin (d + 2) → Fin d → ℝ)
    (cfg : RiemannSolverConfig) (U_i U_j : ConservedState d)
    (n : Fin d → ℝ) (hd_i : ℝ) : EdgeResult :=
  let ri := riemann_data_from_state cfg.gamma U_i n
  let rj := riemann_data_from_state cfg.gamma U_j n
  if cfg.greedy_dij = false then compute cfg ri rj
  else
    let r := compute cfg ri rj
    let lam := compute_lambda cfg.gamma ri rj r.p_star
    if max 0 (max ri.rho rj.rho * cfg.greedy_threshold
        - min ri.rho rj.rho + cfg.machine_eps) = 0 then
      ⟨lam, r.p_star, r.iter⟩
    else
      ⟨min (lambda_greedy limit flux cfg U_i U_j n hd_i) lam, r.p_star, r.iter⟩

/-
  Helper lemmas shared by the claim theorems.
-/

theorem compute_gap_snd (gamma : ℝ) (ri rj : PrimitiveState) (p_1 p_2 : ℝ) :
    (compute_gap gamma ri rj p_1 p_2).2 = compute_lambda gamma ri rj p_2 := rfl

theorem bracket_p1_le_p2 (gamma : ℝ) (ri rj : PrimitiveState) :
    bracket_p1 gamma ri rj ≤ bracket_p2 gamma ri rj := by
  unfold bracket_p1
  by_cases h : (if phi_of_p_max gamma ri rj < 0 then max ri.p rj.p else min ri.p rj.p) ≤
      bracket_p2 gamma ri rj
  all_goals simp [h]

theorem quadratic_newton_step_nest (p_1 p_2 w x y z : ℝ) (h : p_1 ≤ p_2) :
    p_1 ≤ (quadratic_newton_step p_1 p_2 w x y z).1 ∧
      (quadratic_newton_step p_1 p_2 w x y z).1 ≤ (quadratic_newton_step p_1 p_2 w x y z).2 ∧
      (quadratic_newton_step p_1 p_2 w x y z).2 ≤ p_2 := by
  unfold quadratic_newton_step
  refine ⟨?_, ?_, ?_⟩
  · exact le_min (le_min (le_max_right _ _) h) (le_min (le_max_right _ _) h)
  · exact min_le_max
  · exact max_le (min_le_right _ _) (min_le_right _ _)

theorem newton_step_nest (gamma : ℝ) (ri rj : PrimitiveState) (s : NewtonState)
    (h : s.p1 ≤ s.p2) :
    s.p1 ≤ (newton_step gamma ri rj s).p1 ∧
      (newton_step gamma ri rj s).p1 ≤ (newton_step gamma ri rj s).p2 ∧
      (newton_step gamma ri rj s).p2 ≤ s.p2 :=
  quadratic_newton_step_nest s.p1 s.p2
    (phi gamma ri rj s.p1) (phi gamma ri rj s.p2)
    (dphi gamma ri rj s.p1) (dphi gamma ri rj s.p2) h

theorem newton_step_gap_eq (gamma : ℝ) (ri rj : PrimitiveState) (s : NewtonState) :
    (newton_step gamma ri rj s).gap =
      (compute_gap gamma ri rj (newton_step gamma ri rj s).p1
        (newton_step gamma ri rj s).p2).1 := rfl

theorem newton_step_lambda_eq (gamma : ℝ) (ri rj : PrimitiveState) (s : NewtonState) :
    (newton_step gamma ri rj s).lambda_max =
      compute_lambda gamma ri rj (newton_step gamma ri rj s).p2 := rfl

theorem newton_step_iter (gamma : ℝ) (ri rj : PrimitiveState) (s : NewtonState) :
    (newton_step gamma ri rj s).iter = s.iter + 1 := rfl

theorem newton_iterate_nest (gamma eps : ℝ) (ri rj : PrimitiveState) :
    ∀ (fuel : ℕ) (s : NewtonState), s.p1 ≤ s.p2 →
      s.p1 ≤ (newton_iterate gamma eps ri rj fuel s).p1 ∧
        (newton_iterate gamma eps ri rj fuel s).p1 ≤
          (newton_iterate gamma eps ri rj fuel s).p2 ∧
        (newton_iterate gamma eps ri rj fuel s).p2 ≤ s.p2 := by
  intro fuel
  induction fuel with
  | zero => intro s h; exact ⟨le_rfl, h, le_rfl⟩
  | succ fuel ih =>
    intro s h
    rw [newton_iterate]
    split
    · exact ⟨le_rfl, h, le_rfl⟩
    · obtain ⟨h1, h2, h3⟩ := newton_step_nest gamma ri rj s h
      obtain ⟨g1, g2, g3⟩ := ih (newton_step gamma ri rj s) h2
      exact ⟨le_trans h1 g1, g2, le_trans g3 h3⟩

theorem newton_iterate_iter_le (gamma eps : ℝ) (ri rj : PrimitiveState) :
    ∀ (fuel : ℕ) (s : NewtonState),
      (newton_iterate gamma eps ri rj fuel s).iter ≤ s.iter + fuel := by
  intro fuel
  induction fuel with
  | zero =>
    intro s
    rw [show newton_iterate gamma eps ri rj 0 s = s from rfl]
    omega
  | succ fuel ih =>
    intro s
    rw [newton_iterate]
    split
    · omega
    · have h1 := ih (newton_step gamma ri rj s)
      rw [newton_step_iter] at h1
      omega

theorem newton_iterate_early_converged (gamma eps : ℝ) (ri rj : PrimitiveState) :
    ∀ (fuel : ℕ) (s : NewtonState),
      (newton_iterate gamma eps ri rj fuel s).iter < s.iter + fuel →
        (newton_iterate gamma eps ri rj fuel s).gap ≤ eps := by
  intro fuel
  induction fuel with
  | zero =>
    intro s h
    rw [show newton_iterate gamma eps ri rj 0 s = s from rfl] at h
    exact absurd h (by omega)
  | succ fuel ih =>
    intro s h
    rw [newton_iterate] at h ⊢
    by_cases hb : max 0 (s.gap - eps) = 0
    · rw [if_pos hb] at h ⊢
      have hle : s.gap - eps ≤ 0 := by
        by_contra hlt
        push_neg at hlt
        rw [max_eq_right hlt.le] at hb
        linarith
      linarith
    · rw [if_neg hb] at h ⊢
      apply ih
      have h1 : (newton_step gamma ri rj s).iter = s.iter + 1 := rfl
      omega

theorem newton_iterate_of_converged (gamma eps : ℝ) (ri rj : PrimitiveState) :
    ∀ (fuel : ℕ) (s : NewtonState), s.gap ≤ eps →
      newton_iterate gamma eps ri rj fuel s = s := by
  intro fuel
  induction fuel with
  | zero => intro s _; rfl
  | succ fuel _ =>
    intro s h
    rw [newton_iterate]
    rw [if_pos (max_eq_left (by linarith))]

theorem newton_iterate_lambda (gamma eps : ℝ) (ri rj : PrimitiveState) :
    ∀ (fuel : ℕ) (s : NewtonState),
      s.lambda_max = compute_lambda gamma ri rj s.p2 →
        (newton_iterate gamma eps ri rj fuel s).lambda_max =
          compute_lambda gamma ri rj (newton_iterate gamma eps ri rj fuel s).p2 := by
  intro fuel
  induction fuel with
  | zero => intro s h; exact h
  | succ fuel ih =>
    intro s h
    rw [newton_iterate]
    split
    · exact h
    · exact ih (newton_step gamma ri rj s) (newton_step_lambda_eq gamma ri rj s)

theorem lambda3_plus_mono (gamma : ℝ) (s : PrimitiveState) (hg : 1 < gamma)
    (ha : 0 ≤ s.a) (hp : 0 < s.p) {p q : ℝ} (hpq : p ≤ q) :
    lambda3_plus gamma s p ≤ lambda3_plus gamma s q := by
  have h0 : (0 : ℝ) < gamma := lt_trans zero_lt_one hg
  have hfac : 0 ≤ (gamma + 1) * (1/2) * gamma⁻¹ :=
    mul_nonneg (mul_nonneg (by linarith) (by norm_num)) (inv_nonneg.mpr h0.le)
  unfold lambda3_plus positive_part
  have harg : max ((p - s.p) / s.p) 0 ≤ max ((q - s.p) / s.p) 0 :=
    max_le_max (by gcongr) le_rfl
  have : Real.sqrt (1 + (gamma + 1) * (1/2) * gamma⁻¹ * max ((p - s.p) / s.p) 0) ≤
      Real.sqrt (1 + (gamma + 1) * (1/2) * gamma⁻¹ * max ((q - s.p) / s.p) 0) := by
    apply Real.sqrt_le_sqrt
    have := mul_le_mul_of_nonneg_left harg hfac
    linarith
  have := mul_le_mul_of_nonneg_left this ha
  simpa using by linarith

theorem lambda1_minus_anti (gamma : ℝ) (s : PrimitiveState) (hg : 1 < gamma)
    (ha : 0 ≤ s.a) (hp : 0 < s.p) {p q : ℝ} (hpq : p ≤ q) :
    lambda1_minus gamma s q ≤ lambda1_minus gamma s p := by
  have h0 : (0 : ℝ) < gamma := lt_trans zero_lt_one hg
  have hfac : 0 ≤ (gamma + 1) * (1/2) * gamma⁻¹ :=
    mul_nonneg (mul_nonneg (by linarith) (by norm_num)) (inv_nonneg.mpr h0.le)
  unfold lambda1_minus positive_part
  have harg : max ((p - s.p) / s.p) 0 ≤ max ((q - s.p) / s.p) 0 :=
    max_le_max (by gcongr) le_rfl
  have : Real.sqrt (1 + (gamma + 1) * (1/2) * gamma⁻¹ * max ((p - s.p) / s.p) 0) ≤
      Real.sqrt (1 + (gamma + 1) * (1/2) * gamma⁻¹ * max ((q - s.p) / s.p) 0) := by
    apply Real.sqrt_le_sqrt
    have := mul_le_mul_of_nonneg_left harg hfac
    linarith
  have := mul_le_mul_of_nonneg_left this ha
  simpa using by linarith

theorem compute_gap_fst_mono (gamma : ℝ) (ri rj : PrimitiveState) (hg : 1 < gamma)
    (hai : 0 ≤ ri.a) (hpi : 0 < ri.p) (haj : 0 ≤ rj.a) (hpj : 0 < rj.p)
    {p_1 p_2 q_1 q_2 : ℝ} (h1 : p_1 ≤ q_1) (h12 : q_1 ≤ q_2) (h2 : q_2 ≤ p_2) :
    (compute_gap gamma ri rj q_1 q_2).1 ≤ (compute_gap gamma ri rj p_1 p_2).1 := by
  have hp12 : p_1 ≤ p_2 := le_trans h1 (le_trans h12 h2)
  unfold compute_gap
  dsimp only
  rw [abs_of_nonneg (sub_nonneg.mpr (lambda3_plus_mono gamma rj hg haj hpj h12)),
      abs_of_nonneg (sub_nonneg.mpr (lambda3_plus_mono gamma rj hg haj hpj hp12)),
      abs_of_nonneg (sub_nonneg.mpr (lambda1_minus_anti gamma ri hg hai hpi h12)),
      abs_of_nonneg (sub_nonneg.mpr (lambda1_minus_anti gamma ri hg hai hpi hp12))]
  apply max_le_max
  · have a1 := lambda3_plus_mono gamma rj hg haj hpj h2
    have a2 := lambda3_plus_mono gamma rj hg haj hpj h1
    linarith
  · have b1 := lambda1_minus_anti gamma ri hg hai hpi h1
    have b2 := lambda1_minus_anti gamma ri hg hai hpi h2
    linarith

theorem newton_iterate_gap_le (gamma eps : ℝ) (ri rj : PrimitiveState) (hg : 1 < gamma)
    (hai : 0 ≤ ri.a) (hpi : 0 < ri.p) (haj : 0 ≤ rj.a) (hpj : 0 < rj.p) :
    ∀ (fuel : ℕ) (s : NewtonState), s.p1 ≤ s.p2 →
      s.gap = (compute_gap gamma ri rj s.p1 s.p2).1 →
        (newton_iterate gamma eps ri rj fuel s).gap ≤ s.gap := by
  intro fuel
  induction fuel with
  | zero => intro s _ _; exact le_rfl
  | succ fuel ih =>
    intro s h hgap
    rw [newton_iterate]
    split
    · exact le_rfl
    · obtain ⟨h1, h2, h3⟩ := newton_step_nest gamma ri rj s h
      have hmono := compute_gap_fst_mono gamma ri rj hg hai hpi haj hpj h1 h2 h3
      have hrec := ih (newton_step gamma ri rj s) h2 (newton_step_gap_eq gamma ri rj s)
      refine le_trans hrec ?_
      rw [newton_step_gap_eq gamma ri rj s, hgap]
      exact hmono

theorem one_le_sqrt_wave_term (gamma : ℝ) (hg : 1 < gamma) (x : ℝ) :
    1 ≤ Real.sqrt (1 + (gamma + 1) * (1/2) * gamma⁻¹ * positive_part x) := by
  have h0 : (0 : ℝ) < gamma := lt_trans zero_lt_one hg
  have hfac : 0 ≤ (gamma + 1) * (1/2) * gamma⁻¹ :=
    mul_nonneg (mul_nonneg (by linarith) (by norm_num)) (inv_nonneg.mpr h0.le)
  have hpos : 0 ≤ positive_part x := le_max_right _ _
  calc (1 : ℝ) = Real.sqrt 1 := Real.sqrt_one.symm
    _ ≤ _ := Real.sqrt_le_sqrt (by nlinarith)

theorem compute_lambda_ge (gamma : ℝ) (ri rj : PrimitiveState) (hg : 1 < gamma)
    (hai : 0 ≤ ri.a) (haj : 0 ≤ rj.a) (p : ℝ) :
    0 ≤ compute_lambda gamma ri rj p ∧
      positive_part (rj.u + rj.a) ≤ compute_lambda gamma ri rj p ∧
      negative_part (ri.u - ri.a) ≤ compute_lambda gamma ri rj p := by
  have h3 : rj.u + rj.a ≤ lambda3_plus gamma rj p := by
    unfold lambda3_plus
    have := mul_le_mul_of_nonneg_left
      (one_le_sqrt_wave_term gamma hg ((p - rj.p) / rj.p)) haj
    simp only [mul_one] at this
    linarith
  have h1 : lambda1_minus gamma ri p ≤ ri.u - ri.a := by
    unfold lambda1_minus
    have := mul_le_mul_of_nonneg_left
      (one_le_sqrt_wave_term gamma hg ((p - ri.p) / ri.p)) hai
    simp only [mul_one] at this
    linarith
  refine ⟨?_, ?_, ?_⟩
  · exact le_trans (le_max_right _ 0) (le_max_left _ _)
  · exact le_trans (max_le_max h3 le_rfl) (le_max_left _ _)
  · exact le_trans (max_le_max (neg_le_neg h1) le_rfl) (le_max_right _ _)

theorem lambda1_minus_at_own_p (gamma : ℝ) (s : PrimitiveState) {p : ℝ} (hp : p = s.p) :
    lambda1_minus gamma s p = s.u - s.a := by
  subst hp
  unfold lambda1_minus positive_part
  simp

theorem lambda3_plus_at_own_p (gamma : ℝ) (s : PrimitiveState) {p : ℝ} (hp : p = s.p) :
    lambda3_plus gamma s p = s.u + s.a := by
  subst hp
  unfold lambda3_plus positive_part
  simp

theorem p_star_two_rarefaction_same (gamma : ℝ) (ri rj : PrimitiveState)
    (hp : ri.p = rj.p) (hu : ri.u = rj.u) (ha : ri.a + rj.a ≠ 0) (hpj : rj.p ≠ 0) :
    p_star_two_rarefaction gamma ri rj = rj.p := by
  unfold p_star_two_rarefaction
  rw [hp, hu]
  simp [div_self hpj, Real.one_rpow, div_self ha]

theorem phi_of_p_max_same_p (gamma : ℝ) (ri rj : PrimitiveState) (hp : ri.p = rj.p) :
    phi_of_p_max gamma ri rj = rj.u - ri.u := by
  unfold phi_of_p_max
  rw [hp, max_self]
  simp

theorem bracket_p2_same (gamma : ℝ) (ri rj : PrimitiveState)
    (hp : ri.p = rj.p) (hu : ri.u = rj.u) (ha : ri.a + rj.a ≠ 0) (hpj : rj.p ≠ 0) :
    bracket_p2 gamma ri rj = rj.p := by
  have h1 : phi_of_p_max gamma ri rj = 0 := by
    rw [phi_of_p_max_same_p gamma ri rj hp, hu, sub_self]
  unfold bracket_p2
  rw [h1]
  simp only [lt_self_iff_false, if_false]
  rw [p_star_two_rarefaction_same gamma ri rj hp hu ha hpj, hp, max_self, min_self]

theorem bracket_p1_same (gamma : ℝ) (ri rj : PrimitiveState)
    (hp : ri.p = rj.p) (hu : ri.u = rj.u) (ha : ri.a + rj.a ≠ 0) (hpj : rj.p ≠ 0) :
    bracket_p1 gamma ri rj = rj.p := by
  have h1 : phi_of_p_max gamma ri rj = 0 := by
    rw [phi_of_p_max_same_p gamma ri rj hp, hu, sub_self]
  unfold bracket_p1
  rw [h1, bracket_p2_same gamma ri rj hp hu ha hpj]
  simp only [lt_self_iff_false, if_false]
  rw [hp, min_self, if_pos le_rfl]

theorem max_pos_neg_same (u a : ℝ) (ha : 0 ≤ a) :
    max (positive_part (u + a)) (negative_part (u - a)) = |u| + a := by
  unfold positive_part negative_part
  rw [neg_sub]
  rcases le_or_lt 0 u with h | h
  · rw [abs_of_nonneg h, max_eq_left (by linarith : (0:ℝ) ≤ u + a)]
    exact max_eq_left (max_le (by linarith) (by linarith))
  · rw [abs_of_neg h, max_eq_left (by linarith : (0:ℝ) ≤ a - u)]
    rw [max_eq_right (max_le (by linarith) (by linarith))]
    ring

theorem newton_init_same (gamma : ℝ) (ri rj : PrimitiveState)
    (hp : ri.p = rj.p) (hu : ri.u = rj.u) (ha : ri.a + rj.a ≠ 0) (hpj : rj.p ≠ 0) :
    newton_init gamma ri rj =
      ⟨rj.p, rj.p, 0,
        max (positive_part (rj.u + rj.a)) (negative_part (ri.u - ri.a)), 0⟩ := by
  unfold newton_init compute_gap
  rw [bracket_p1_same gamma ri rj hp hu ha hpj, bracket_p2_same gamma ri rj hp hu ha hpj]
  simp only [lambda1_minus_at_own_p gamma ri hp.symm, lambda3_plus_at_own_p gamma rj rfl,
    sub_self, abs_zero, max_self]

theorem bracket_p2_nonneg (gamma : ℝ) (ri rj : PrimitiveState)
    (hi : Admissible ri) (hpt : 0 ≤ p_star_two_rarefaction gamma ri rj) :
    0 ≤ bracket_p2 gamma ri rj := by
  unfold bracket_p2
  split
  · exact hpt
  · exact le_min (le_trans hi.2.1.le (le_max_left _ _)) hpt

theorem bracket_p1_nonneg (gamma : ℝ) (ri rj : PrimitiveState)
    (hi : Admissible ri) (hj : Admissible rj)
    (hpt : 0 ≤ p_star_two_rarefaction gamma ri rj) :
    0 ≤ bracket_p1 gamma ri rj := by
  unfold bracket_p1
  have h2 := bracket_p2_nonneg gamma ri rj hi hpt
  have hraw : 0 ≤ (if phi_of_p_max gamma ri rj < 0 then max ri.p rj.p else min ri.p rj.p) := by
    split
    · exact le_trans hi.2.1.le (le_max_left _ _)
    · exact le_min hi.2.1.le hj.2.1.le
  by_cases h : (if phi_of_p_max gamma ri rj < 0 then max ri.p rj.p else min ri.p rj.p) ≤
      bracket_p2 gamma ri rj
  · simp only [h, if_true]
    exact hraw
  · simp only [h, if_false]
    exact h2

/-
  Claim theorems, one per claim of the specification audit, together
  with their witnesses and counterexamples.
-/

/-- C9: for every pair of primitive states, `phi_of_p_max(state_i,
state_j)` returns exactly `phi(state_i, state_j, max(p_i, p_j))`: at
that pressure both operands of `f` take the shock branch, so the
specialized evaluation that avoids the power function agrees with the
general one. -/
theorem phi_of_p_max_eq_phi_at_p_max (gamma : ℝ) (ri rj : PrimitiveState) :
    phi_of_p_max gamma ri rj = phi gamma ri rj (max ri.p rj.p) := by
  simp only [phi_of_p_max, phi, f]
  rw [if_pos (le_max_left ri.p rj.p), if_pos (le_max_right ri.p rj.p)]

/-- C7: for identical primitive inputs, `compute` returns the star
pressure `p` exactly and `lambda_max = |u| + a`, with zero Newton
iterations performed: the bracket initializer alone already satisfies
the convergence test. -/
theorem compute_identity_case (cfg : RiemannSolverConfig) (r : PrimitiveState)
    (hr : Admissible r) (heps : 0 ≤ cfg.newton_eps)
    (hiter : cfg.newton_max_iter ≠ 0) (hgreedy : cfg.greedy_dij = false) :
    compute cfg r r = ⟨|r.u| + r.a, r.p, 0⟩ := by
  obtain ⟨hrho, hp, ha⟩ := hr
  have hsum : r.a + r.a ≠ 0 := ne_of_gt (by linarith)
  have hinit := newton_init_same cfg.gamma r r rfl rfl hsum (ne_of_gt hp)
  have hgap0 : (newton_init cfg.gamma r r).gap = 0 := by rw [hinit]
  have hfinal : newton_final cfg r r = newton_init cfg.gamma r r := by
    unfold newton_final
    exact newton_iterate_of_converged cfg.gamma cfg.newton_eps r r cfg.newton_max_iter _
      (by rw [hgap0]; exact heps)
  unfold compute
  rw [if_neg hiter]
  simp only [hfinal, hinit, hgreedy, Bool.false_eq_true, if_false]
  rw [max_pos_neg_same r.u r.a ha.le]
  norm_num

/-- C7 witness: the identity case evaluated at the concrete admissible
state `(rho, u, p, a) = (1, 10, 5/7, 1)` with `gamma = 7/5`. -/
theorem compute_identity_case_witness :
    compute ⟨7/5, 1, 0, false, 0, false, 0⟩ ⟨1, 10, 5/7, 1⟩ ⟨1, 10, 5/7, 1⟩ =
      ⟨|(10:ℝ)| + 1, 5/7, 0⟩ :=
  compute_identity_case ⟨7/5, 1, 0, false, 0, false, 0⟩ ⟨1, 10, 5/7, 1⟩
    ⟨by norm_num, by norm_num, by norm_num⟩ le_rfl (by norm_num) rfl

/-- C1 (amended): for admissible states the returned `lambda_max` of the
non-greedy `compute` is non-negative and bounded below by the outward
characteristic speeds `positive_part(u_j + a_j)` and
`negative_part(u_i - a_i)`, with no slack; the bound
`max(|u_i| + a_i, |u_j| + a_j)` claimed originally fails (see the
counterexample). -/
theorem compute_lambda_max_lower_bound (cfg : RiemannSolverConfig)
    (ri rj : PrimitiveState) (hg : 1 < cfg.gamma)
    (hi : Admissible ri) (hj : Admissible rj) (hgreedy : cfg.greedy_dij = false) :
    0 ≤ (compute cfg ri rj).lambda_max ∧
      positive_part (rj.u + rj.a) ≤ (compute cfg ri rj).lambda_max ∧
      negative_part (ri.u - ri.a) ≤ (compute cfg ri rj).lambda_max := by
  unfold compute
  by_cases hiter : cfg.newton_max_iter = 0
  · rw [if_pos hiter]
    exact compute_lambda_ge cfg.gamma ri rj hg hi.2.2.le hj.2.2.le _
  · rw [if_neg hiter]
    simp only [hgreedy, Bool.false_eq_true, if_false]
    have hlam : (newton_final cfg ri rj).lambda_max =
        compute_lambda cfg.gamma ri rj (newton_final cfg ri rj).p2 :=
      newton_iterate_lambda cfg.gamma cfg.newton_eps ri rj cfg.newton_max_iter
        (newton_init cfg.gamma ri rj) rfl
    rw [hlam]
    exact compute_lambda_ge cfg.gamma ri rj hg hi.2.2.le hj.2.2.le _

/-- C1 witness: the lower bound instantiated at the admissible states
`(1, 3, 5/7, 1)` and `(2, -1, 1, 1)` with `gamma = 7/5` and two Newton
iterations. -/
theorem compute_lambda_max_lower_bound_witness :
    0 ≤ (compute ⟨7/5, 2, 1/1000000, false, 0, false, 0⟩
        ⟨1, 3, 5/7, 1⟩ ⟨2, -1, 1, 1⟩).lambda_max ∧
      positive_part ((-1) + 1) ≤ (compute ⟨7/5, 2, 1/1000000, false, 0, false, 0⟩
        ⟨1, 3, 5/7, 1⟩ ⟨2, -1, 1, 1⟩).lambda_max ∧
      negative_part (3 - 1) ≤ (compute ⟨7/5, 2, 1/1000000, false, 0, false, 0⟩
        ⟨1, 3, 5/7, 1⟩ ⟨2, -1, 1, 1⟩).lambda_max :=
  compute_lambda_max_lower_bound ⟨7/5, 2, 1/1000000, false, 0, false, 0⟩
    ⟨1, 3, 5/7, 1⟩ ⟨2, -1, 1, 1⟩ (by norm_num)
    ⟨by norm_num, by norm_num, by norm_num⟩
    ⟨by norm_num, by norm_num, by norm_num⟩ rfl

/-- C1 counterexample: for the admissible pair
`state_i = (1/4, 10, 5/7, 2)` and `state_j = (1, 10, 5/7, 1)` (equal
pressures and velocities, consistent sound speeds, `gamma = 7/5`), the
returned `lambda_max` is `11` while `max(|u_i| + a_i, |u_j| + a_j) =
12`: the claimed lower bound fails by a full `1`, which no small
numerical slack covers. -/
theorem compute_lambda_max_lower_bound_cex :
    Admissible ⟨1/4, 10, 5/7, 2⟩ ∧ Admissible ⟨1, 10, 5/7, 1⟩ ∧
      (compute ⟨7/5, 1, 0, false, 0, false, 0⟩ ⟨1/4, 10, 5/7, 2⟩
          ⟨1, 10, 5/7, 1⟩).lambda_max + 1/2 <
        max (|(⟨1/4, 10, 5/7, 2⟩ : PrimitiveState).u| + (⟨1/4, 10, 5/7, 2⟩ : PrimitiveState).a)
          (|(⟨1, 10, 5/7, 1⟩ : PrimitiveState).u| + (⟨1, 10, 5/7, 1⟩ : PrimitiveState).a) := by
  refine ⟨⟨by norm_num, by norm_num, by norm_num⟩,
    ⟨by norm_num, by norm_num, by norm_num⟩, ?_⟩
  have hinit := newton_init_same (7/5) (⟨1/4, 10, 5/7, 2⟩ : PrimitiveState)
    ⟨1, 10, 5/7, 1⟩ rfl rfl (by norm_num) (by norm_num)
  have hgap0 : (newton_init (7/5) (⟨1/4, 10, 5/7, 2⟩ : PrimitiveState)
      ⟨1, 10, 5/7, 1⟩).gap = 0 := by rw [hinit]
  have hfinal : newton_final ⟨7/5, 1, 0, false, 0, false, 0⟩
      (⟨1/4, 10, 5/7, 2⟩ : PrimitiveState) ⟨1, 10, 5/7, 1⟩ =
      newton_init (7/5) ⟨1/4, 10, 5/7, 2⟩ ⟨1, 10, 5/7, 1⟩ := by
    unfold newton_final
    exact newton_iterate_of_converged (7/5) 0 _ _ 1 _ (le_of_eq hgap0)
  unfold compute
  rw [if_neg (by norm_num : ¬(1:ℕ) = 0)]
  simp only [hfinal, hinit, Bool.false_eq_true, if_false]
  unfold positive_part negative_part
  rw [abs_of_nonneg (show (0:ℝ) ≤ 10 by norm_num)]
  norm_num

/-- C5: the Newton refiner has a non-increasing wave-speed gap along any
well-formed run, its iteration counter never exceeds the configured
maximum, it converged whenever it stopped early, and it stops
immediately once the gap is at most the tolerance. -/
theorem newton_refiner_gap_and_termination (cfg : RiemannSolverConfig)
    (ri rj : PrimitiveState) (hg : 1 < cfg.gamma)
    (hi : Admissible ri) (hj : Admissible rj) :
    (∀ (fuel : ℕ) (s : NewtonState), s.p1 ≤ s.p2 →
        s.gap = (compute_gap cfg.gamma ri rj s.p1 s.p2).1 →
        (newton_iterate cfg.gamma cfg.newton_eps ri rj fuel s).gap ≤ s.gap) ∧
      (newton_final cfg ri rj).iter ≤ cfg.newton_max_iter ∧
      ((newton_final cfg ri rj).iter < cfg.newton_max_iter →
        (newton_final cfg ri rj).gap ≤ cfg.newton_eps) ∧
      (∀ (fuel : ℕ) (s : NewtonState), s.gap ≤ cfg.newton_eps →
        newton_iterate cfg.gamma cfg.newton_eps ri rj fuel s = s) := by
  refine ⟨?_, ?_, ?_, ?_⟩
  · intro fuel s h1 h2
    exact newton_iterate_gap_le cfg.gamma cfg.newton_eps ri rj hg
      hi.2.2.le hi.2.1 hj.2.2.le hj.2.1 fuel s h1 h2
  · have h := newton_iterate_iter_le cfg.gamma cfg.newton_eps ri rj
      cfg.newton_max_iter (newton_init cfg.gamma ri rj)
    have h0 : (newton_init cfg.gamma ri rj).iter = 0 := rfl
    unfold newton_final
    omega
  · intro h
    have h0 : (newton_init cfg.gamma ri rj).iter = 0 := rfl
    unfold newton_final at h ⊢
    exact newton_iterate_early_converged cfg.gamma cfg.newton_eps ri rj
      cfg.newton_max_iter (newton_init cfg.gamma ri rj) (by omega)
  · exact newton_iterate_of_converged cfg.gamma cfg.newton_eps ri rj

/-- C5 witness: the refiner properties instantiated at the Sod-like
admissible pair `(1, 0, 1, 1)` and `(1/8, 0, 1/10, 1)` with
`gamma = 7/5`, tolerance `1/10^10` and 10 iterations. -/
theorem newton_refiner_gap_and_termination_witness :
    (∀ (fuel : ℕ) (s : NewtonState), s.p1 ≤ s.p2 →
        s.gap = (compute_gap (7/5) ⟨1, 0, 1, 1⟩ ⟨1/8, 0, 1/10, 1⟩ s.p1 s.p2).1 →
        (newton_iterate (7/5) (1/10000000000) ⟨1, 0, 1, 1⟩ ⟨1/8, 0, 1/10, 1⟩
          fuel s).gap ≤ s.gap) ∧
      (newton_final ⟨7/5, 10, 1/10000000000, false, 0, false, 0⟩
        ⟨1, 0, 1, 1⟩ ⟨1/8, 0, 1/10, 1⟩).iter ≤ 10 ∧
      ((newton_final ⟨7/5, 10, 1/10000000000, false, 0, false, 0⟩
          ⟨1, 0, 1, 1⟩ ⟨1/8, 0, 1/10, 1⟩).iter < 10 →
        (newton_final ⟨7/5, 10, 1/10000000000, false, 0, false, 0⟩
          ⟨1, 0, 1, 1⟩ ⟨1/8, 0, 1/10, 1⟩).gap ≤ 1/10000000000) ∧
      (∀ (fuel : ℕ) (s : NewtonState), s.gap ≤ 1/10000000000 →
        newton_iterate (7/5) (1/10000000000) ⟨1, 0, 1, 1⟩ ⟨1/8, 0, 1/10, 1⟩ fuel s = s) :=
  newton_refiner_gap_and_termination ⟨7/5, 10, 1/10000000000, false, 0, false, 0⟩
    ⟨1, 0, 1, 1⟩ ⟨1/8, 0, 1/10, 1⟩ (by norm_num)
    ⟨by norm_num, by norm_num, by norm_num⟩
    ⟨by norm_num, by norm_num, by norm_num⟩

/-- C4 (amended): for admissible states whose two-rarefaction estimate
is non-negative, the initialized bracket satisfies
`0 <= p_lo <= p_hi`, and every Newton iteration keeps the bracket
ordered, non-negative, and nested inside the previous one (never
inverted, never expanded).  Non-negativity genuinely needs the
two-rarefaction hypothesis: see the counterexample. -/
theorem bracket_invariant (cfg : RiemannSolverConfig) (ri rj : PrimitiveState)
    (hi : Admissible ri) (hj : Admissible rj)
    (hpt : 0 ≤ p_star_two_rarefaction cfg.gamma ri rj) :
    (0 ≤ bracket_p1 cfg.gamma ri rj ∧
        bracket_p1 cfg.gamma ri rj ≤ bracket_p2 cfg.gamma ri rj) ∧
      ∀ (fuel : ℕ) (s : NewtonState), 0 ≤ s.p1 → s.p1 ≤ s.p2 →
        s.p1 ≤ (newton_iterate cfg.gamma cfg.newton_eps ri rj fuel s).p1 ∧
        (newton_iterate cfg.gamma cfg.newton_eps ri rj fuel s).p1 ≤
          (newton_iterate cfg.gamma cfg.newton_eps ri rj fuel s).p2 ∧
        (newton_iterate cfg.gamma cfg.newton_eps ri rj fuel s).p2 ≤ s.p2 ∧
        0 ≤ (newton_iterate cfg.gamma cfg.newton_eps ri rj fuel s).p1 ∧
        0 ≤ (newton_iterate cfg.gamma cfg.newton_eps ri rj fuel s).p2 := by
  refine ⟨⟨bracket_p1_nonneg cfg.gamma ri rj hi hj hpt, bracket_p1_le_p2 cfg.gamma ri rj⟩, ?_⟩
  intro fuel s h0 h12
  obtain ⟨g1, g2, g3⟩ := newton_iterate_nest cfg.gamma cfg.newton_eps ri rj fuel s h12
  exact ⟨g1, g2, g3, le_trans h0 g1, le_trans (le_trans h0 g1) g2⟩

/-- C4 witness: the bracket invariant instantiated at the identical
admissible state `(1, 10, 5/7, 1)` with `gamma = 7/5`, for which the
two-rarefaction estimate equals `5/7 >= 0`. -/
theorem bracket_invariant_witness :
    (0 ≤ bracket_p1 (7/5) ⟨1, 10, 5/7, 1⟩ ⟨1, 10, 5/7, 1⟩ ∧
        bracket_p1 (7/5) ⟨1, 10, 5/7, 1⟩ ⟨1, 10, 5/7, 1⟩ ≤
          bracket_p2 (7/5) ⟨1, 10, 5/7, 1⟩ ⟨1, 10, 5/7, 1⟩) ∧
      ∀ (fuel : ℕ) (s : NewtonState), 0 ≤ s.p1 → s.p1 ≤ s.p2 →
        s.p1 ≤ (newton_iterate (7/5) (1/100) ⟨1, 10, 5/7, 1⟩ ⟨1, 10, 5/7, 1⟩ fuel s).p1 ∧
        (newton_iterate (7/5) (1/100) ⟨1, 10, 5/7, 1⟩ ⟨1, 10, 5/7, 1⟩ fuel s).p1 ≤
          (newton_iterate (7/5) (1/100) ⟨1, 10, 5/7, 1⟩ ⟨1, 10, 5/7, 1⟩ fuel s).p2 ∧
        (newton_iterate (7/5) (1/100) ⟨1, 10, 5/7, 1⟩ ⟨1, 10, 5/7, 1⟩ fuel s).p2 ≤ s.p2 ∧
        0 ≤ (newton_iterate (7/5) (1/100) ⟨1, 10, 5/7, 1⟩ ⟨1, 10, 5/7, 1⟩ fuel s).p1 ∧
        0 ≤ (newton_iterate (7/5) (1/100) ⟨1, 10, 5/7, 1⟩ ⟨1, 10, 5/7, 1⟩ fuel s).p2 :=
  bracket_invariant ⟨7/5, 5, 1/100, false, 0, false, 0⟩ ⟨1, 10, 5/7, 1⟩ ⟨1, 10, 5/7, 1⟩
    ⟨by norm_num, by norm_num, by norm_num⟩
    ⟨by norm_num, by norm_num, by norm_num⟩
    (by
      rw [p_star_two_rarefaction_same (7/5) ⟨1, 10, 5/7, 1⟩ ⟨1, 10, 5/7, 1⟩ rfl rfl
        (by norm_num) (by norm_num)]
      norm_num)

/-- C4 counterexample: for the admissible vacuum-forming pair
`state_i = (1, -10, 5/7, 1)`, `state_j = (1, 10, 5/7, 1)` with
`gamma = 7/5`, the two-rarefaction estimate is `-5/7`, so the
initialized upper bracket end `p_hi` is negative: the claimed
non-negativity of the bracket fails. -/
theorem bracket_invariant_cex :
    Admissible ⟨1, -10, 5/7, 1⟩ ∧ Admissible ⟨1, 10, 5/7, 1⟩ ∧
      bracket_p2 (7/5) ⟨1, -10, 5/7, 1⟩ ⟨1, 10, 5/7, 1⟩ < 0 := by
  refine ⟨⟨by norm_num, by norm_num, by norm_num⟩,
    ⟨by norm_num, by norm_num, by norm_num⟩, ?_⟩
  have hpst : p_star_two_rarefaction (7/5) (⟨1, -10, 5/7, 1⟩ : PrimitiveState)
      ⟨1, 10, 5/7, 1⟩ = -(5/7) := by
    simp only [p_star_two_rarefaction]
    norm_num [Real.one_rpow]
  have hphi : phi_of_p_max (7/5) (⟨1, -10, 5/7, 1⟩ : PrimitiveState)
      ⟨1, 10, 5/7, 1⟩ = 20 := by
    rw [phi_of_p_max_same_p (7/5) ⟨1, -10, 5/7, 1⟩ ⟨1, 10, 5/7, 1⟩ rfl]
    norm_num
  unfold bracket_p2
  rw [hphi, if_neg (by norm_num : ¬(20:ℝ) < 0), hpst]
  norm_num

/-- C2 (amended): with the Newton iteration count configured to zero,
`compute` skips refinement, reports the sentinel iteration count `-1`,
and returns as its pressure output the initializer value `p_2`, which
equals the two-rarefaction estimate exactly whenever `phi(p_max) < 0` or
the estimate does not exceed `p_max`; when `phi(p_max) >= 0` and the
estimate exceeds `p_max`, the output is `p_max` instead (see the
counterexample). -/
theorem compute_zero_iteration (cfg : RiemannSolverConfig) (ri rj : PrimitiveState)
    (hiter : cfg.newton_max_iter = 0)
    (h : phi_of_p_max cfg.gamma ri rj < 0 ∨
      p_star_two_rarefaction cfg.gamma ri rj ≤ max ri.p rj.p) :
    (compute cfg ri rj).p_star = p_star_two_rarefaction cfg.gamma ri rj ∧
      (compute cfg ri rj).iter = -1 ∧
      (compute cfg ri rj).lambda_max =
        compute_lambda cfg.gamma ri rj (p_star_two_rarefaction cfg.gamma ri rj) := by
  have hb : bracket_p2 cfg.gamma ri rj = p_star_two_rarefaction cfg.gamma ri rj := by
    unfold bracket_p2
    by_cases hphi : phi_of_p_max cfg.gamma ri rj < 0
    · rw [if_pos hphi]
    · rw [if_neg hphi]
      rcases h with h | h
      · exact absurd h hphi
      · exact min_eq_right h
  unfold compute
  rw [if_pos hiter, hb]
  exact ⟨rfl, rfl, rfl⟩

/-- C2 witness: the zero-iteration mode at the identical admissible
state `(1, 10, 5/7, 1)` with `gamma = 7/5`, where the two-rarefaction
estimate `5/7` does not exceed `p_max = 5/7`. -/
theorem compute_zero_iteration_witness :
    (compute ⟨7/5, 0, 0, false, 0, false, 0⟩ ⟨1, 10, 5/7, 1⟩ ⟨1, 10, 5/7, 1⟩).p_star =
        p_star_two_rarefaction (7/5) ⟨1, 10, 5/7, 1⟩ ⟨1, 10, 5/7, 1⟩ ∧
      (compute ⟨7/5, 0, 0, false, 0, false, 0⟩ ⟨1, 10, 5/7, 1⟩ ⟨1, 10, 5/7, 1⟩).iter = -1 ∧
      (compute ⟨7/5, 0, 0, false, 0, false, 0⟩ ⟨1, 10, 5/7, 1⟩ ⟨1, 10, 5/7, 1⟩).lambda_max =
        compute_lambda (7/5) ⟨1, 10, 5/7, 1⟩ ⟨1, 10, 5/7, 1⟩
          (p_star_two_rarefaction (7/5) ⟨1, 10, 5/7, 1⟩ ⟨1, 10, 5/7, 1⟩) :=
  compute_zero_iteration ⟨7/5, 0, 0, false, 0, false, 0⟩ ⟨1, 10, 5/7, 1⟩ ⟨1, 10, 5/7, 1⟩ rfl
    (Or.inr (by
      rw [p_star_two_rarefaction_same (7/5) ⟨1, 10, 5/7, 1⟩ ⟨1, 10, 5/7, 1⟩ rfl rfl
        (by norm_num) (by norm_num)]
      norm_num))

theorem rpow_128_neg_seventh : ((128:ℝ)) ^ (-((1:ℝ)/7)) = 1/2 := by
  have h2 : (128:ℝ) = 2 ^ ((7:ℕ):ℝ) := by rw [Real.rpow_natCast]; norm_num
  rw [h2, ← Real.rpow_mul (by norm_num : (0:ℝ) ≤ 2)]
  rw [show ((7:ℕ):ℝ) * (-((1:ℝ)/7)) = -1 by push_cast; ring]
  rw [Real.rpow_neg_one]
  norm_num

/-- C2 counterexample: for the admissible pair
`state_i = (56/5, 6, 128, 4)`, `state_j = (7/5, 0, 1, 1)` with
`gamma = 7/5` and zero Newton iterations, `phi(p_max) >= 0` while the
two-rarefaction estimate is `(31/15)^7 > 128 = p_max`, so the pressure
output is `128` and differs from the two-rarefaction estimate. -/
theorem compute_zero_iteration_cex :
    Admissible ⟨56/5, 6, 128, 4⟩ ∧ Admissible ⟨7/5, 0, 1, 1⟩ ∧
      (compute ⟨7/5, 0, 0, false, 0, false, 0⟩ ⟨56/5, 6, 128, 4⟩ ⟨7/5, 0, 1, 1⟩).p_star = 128 ∧
      p_star_two_rarefaction (7/5) ⟨56/5, 6, 128, 4⟩ ⟨7/5, 0, 1, 1⟩ ≠ 128 := by
  have hpst : p_star_two_rarefaction (7/5) (⟨56/5, 6, 128, 4⟩ : PrimitiveState)
      ⟨7/5, 0, 1, 1⟩ = (31/15 : ℝ) ^ (7:ℕ) := by
    simp only [p_star_two_rarefaction]
    norm_num [rpow_128_neg_seventh]
  have hphi : ¬ phi_of_p_max (7/5) (⟨56/5, 6, 128, 4⟩ : PrimitiveState)
      ⟨7/5, 0, 1, 1⟩ < 0 := by
    have hs_le : Real.sqrt 5383 ≤ 635/6 := by
      rw [show (635/6 : ℝ) = Real.sqrt ((635/6)^2) from (Real.sqrt_sq (by norm_num)).symm]
      exact Real.sqrt_le_sqrt (by norm_num)
    have h25 : Real.sqrt 25 = 5 := by
      rw [show (25:ℝ) = 5^2 by norm_num, Real.sqrt_sq (by norm_num : (0:ℝ) ≤ 5)]
    simp only [phi_of_p_max]
    norm_num
    rw [h25, le_div_iff₀ (by positivity)]
    linarith
  have hb : bracket_p2 (7/5) (⟨56/5, 6, 128, 4⟩ : PrimitiveState) ⟨7/5, 0, 1, 1⟩ = 128 := by
    unfold bracket_p2
    rw [if_neg hphi, hpst]
    norm_num
  refine ⟨⟨by norm_num, by norm_num, by norm_num⟩,
    ⟨by norm_num, by norm_num, by norm_num⟩, ?_, ?_⟩
  · unfold compute
    rw [if_pos rfl]
    exact hb
  · rw [hpst]
    norm_num

/-- C6 (amended): when greedy mode is enabled and the Newton iteration
count is at least one, the sub-call `compute(riemann_data_i,
riemann_data_j)` returns exactly the triple `(p_1, p_2,
iterations_used)` of the final Newton state, and that pair is a genuine
bracket, `p_1 <= p_2`; with iteration count zero the zero-iteration
shortcut fires first and the first slot carries `lambda_max` instead
(see the counterexample). -/
theorem compute_greedy_returns_bracket (cfg : RiemannSolverConfig)
    (ri rj : PrimitiveState) (hg : cfg.greedy_dij = true)
    (hiter : cfg.newton_max_iter ≠ 0) :
    compute cfg ri rj =
      ⟨(newton_final cfg ri rj).p1, (newton_final cfg ri rj).p2,
        ((newton_final cfg ri rj).iter : ℤ)⟩ ∧
      (newton_final cfg ri rj).p1 ≤ (newton_final cfg ri rj).p2 := by
  constructor
  · unfold compute
    rw [if_neg hiter]
    simp only [hg, if_true]
  · unfold newton_final
    exact (newton_iterate_nest cfg.gamma cfg.newton_eps ri rj cfg.newton_max_iter
      (newton_init cfg.gamma ri rj) (bracket_p1_le_p2 cfg.gamma ri rj)).2.1

/-- C6 witness: the greedy bracket return at the identical admissible
state `(1, 10, 5/7, 1)` with `gamma = 7/5` and one Newton iteration. -/
theorem compute_greedy_returns_bracket_witness :
    compute ⟨7/5, 1, 0, true, 0, false, 0⟩ ⟨1, 10, 5/7, 1⟩ ⟨1, 10, 5/7, 1⟩ =
      ⟨(newton_final ⟨7/5, 1, 0, true, 0, false, 0⟩ ⟨1, 10, 5/7, 1⟩ ⟨1, 10, 5/7, 1⟩).p1,
        (newton_final ⟨7/5, 1, 0, true, 0, false, 0⟩ ⟨1, 10, 5/7, 1⟩ ⟨1, 10, 5/7, 1⟩).p2,
        ((newton_final ⟨7/5, 1, 0, true, 0, false, 0⟩ ⟨1, 10, 5/7, 1⟩ ⟨1, 10, 5/7, 1⟩).iter : ℤ)⟩ ∧
      (newton_final ⟨7/5, 1, 0, true, 0, false, 0⟩ ⟨1, 10, 5/7, 1⟩ ⟨1, 10, 5/7, 1⟩).p1 ≤
        (newton_final ⟨7/5, 1, 0, true, 0, false, 0⟩ ⟨1, 10, 5/7, 1⟩ ⟨1, 10, 5/7, 1⟩).p2 :=
  compute_greedy_returns_bracket ⟨7/5, 1, 0, true, 0, false, 0⟩
    ⟨1, 10, 5/7, 1⟩ ⟨1, 10, 5/7, 1⟩ rfl (by norm_num)

/-- C6 counterexample: with greedy mode enabled and the Newton iteration
count configured to zero, at the identical admissible state
`(1, 10, 5/7, 1)` the sub-call returns `(11, 5/7, -1)`: the first slot
is the wave-speed bound, not a lower bracket end, and the pair even
fails `p_lo <= p_hi`. -/
theorem compute_greedy_returns_bracket_cex :
    (compute ⟨7/5, 0, 0, true, 0, false, 0⟩ ⟨1, 10, 5/7, 1⟩ ⟨1, 10, 5/7, 1⟩).lambda_max = 11 ∧
      (compute ⟨7/5, 0, 0, true, 0, false, 0⟩ ⟨1, 10, 5/7, 1⟩ ⟨1, 10, 5/7, 1⟩).p_star = 5/7 ∧
      (compute ⟨7/5, 0, 0, true, 0, false, 0⟩ ⟨1, 10, 5/7, 1⟩ ⟨1, 10, 5/7, 1⟩).iter = -1 ∧
      ¬ ((compute ⟨7/5, 0, 0, true, 0, false, 0⟩ ⟨1, 10, 5/7, 1⟩
          ⟨1, 10, 5/7, 1⟩).lambda_max ≤
        (compute ⟨7/5, 0, 0, true, 0, false, 0⟩ ⟨1, 10, 5/7, 1⟩ ⟨1, 10, 5/7, 1⟩).p_star) := by
  have hb : bracket_p2 (7/5) (⟨1, 10, 5/7, 1⟩ : PrimitiveState) ⟨1, 10, 5/7, 1⟩ = 5/7 :=
    bracket_p2_same (7/5) ⟨1, 10, 5/7, 1⟩ ⟨1, 10, 5/7, 1⟩ rfl rfl (by norm_num) (by norm_num)
  have hcl : compute_lambda (7/5) (⟨1, 10, 5/7, 1⟩ : PrimitiveState)
      ⟨1, 10, 5/7, 1⟩ (5/7) = 11 := by
    unfold compute_lambda
    rw [lambda3_plus_at_own_p (7/5) ⟨1, 10, 5/7, 1⟩ rfl,
      lambda1_minus_at_own_p (7/5) ⟨1, 10, 5/7, 1⟩ rfl]
    unfold positive_part negative_part
    norm_num
  have hc : compute ⟨7/5, 0, 0, true, 0, false, 0⟩ ⟨1, 10, 5/7, 1⟩ ⟨1, 10, 5/7, 1⟩ =
      ⟨11, 5/7, -1⟩ := by
    unfold compute
    rw [if_pos rfl]
    show (⟨compute_lambda (7/5) ⟨1, 10, 5/7, 1⟩ ⟨1, 10, 5/7, 1⟩
        (bracket_p2 (7/5) ⟨1, 10, 5/7, 1⟩ ⟨1, 10, 5/7, 1⟩),
      bracket_p2 (7/5) ⟨1, 10, 5/7, 1⟩ ⟨1, 10, 5/7, 1⟩, -1⟩ : EdgeResult) = ⟨11, 5/7, -1⟩
    rw [hb, hcl]
  rw [hc]
  norm_num

theorem greedy_active_iff_pos (cfg : RiemannSolverConfig) (ri rj : PrimitiveState) :
    greedy_active cfg ri rj ↔
      0 < max ri.rho rj.rho * cfg.greedy_threshold - min ri.rho rj.rho +
        cfg.machine_eps := by
  unfold greedy_active
  constructor
  · intro h
    by_contra hx
    push_neg at hx
    exact h (max_eq_left hx)
  · intro h hmax
    rw [max_eq_right h.le] at hmax
    linarith

theorem compute_greedy_flag_shape (cfg : RiemannSolverConfig) (ri rj : PrimitiveState) :
    compute { cfg with greedy_dij := false } ri rj =
      ⟨compute_lambda cfg.gamma ri rj ((compute cfg ri rj).p_star),
        (compute cfg ri rj).p_star, (compute cfg ri rj).iter⟩ := by
  unfold compute newton_final
  by_cases hiter : cfg.newton_max_iter = 0
  · rw [if_pos hiter, if_pos hiter]
  · rw [if_neg hiter, if_neg hiter]
    simp only [Bool.false_eq_true, if_false]
    have hlam := newton_iterate_lambda cfg.gamma cfg.newton_eps ri rj cfg.newton_max_iter
      (newton_init cfg.gamma ri rj) rfl
    cases hgb : cfg.greedy_dij
    · simp only [Bool.false_eq_true, if_false]
      rw [hlam]
    · simp only [if_true]
      rw [hlam]

/-- C3: on every input where the greedy path activates, the final
reported wave-speed bound equals `min(lambda_greedy, lambda_max)` and is
at most the bound computed with greedy mode disabled on the same input —
for every behavior of the external limiter and flux, so floating-point
error inside the limiter cannot enlarge the non-greedy bound. -/
theorem greedy_never_enlarges {d : ℕ}
    (limit : ℝ × ℝ × ℝ × ℝ × ℝ → ConservedState d → (Fin (d + 2) → ℝ) → ℝ → ℝ → ℝ)
    (flux : ConservedState d → Fin (d + 2) → Fin d → ℝ)
    (cfg : RiemannSolverConfig) (U_i U_j : ConservedState d)
    (n : Fin d → ℝ) (hd_i : ℝ) (hg : cfg.greedy_dij = true)
    (hact : greedy_active cfg (riemann_data_from_state cfg.gamma U_i n)
      (riemann_data_from_state cfg.gamma U_j n)) :
    (compute_from_states limit flux cfg U_i U_j n hd_i).lambda_max =
        min (lambda_greedy limit flux cfg U_i U_j n hd_i)
          (greedy_lambda_max cfg U_i U_j n) ∧
      (compute_from_states limit flux cfg U_i U_j n hd_i).lambda_max ≤
        (compute_from_states limit flux { cfg with greedy_dij := false }
          U_i U_j n hd_i).lambda_max := by
  have hgne : ¬ cfg.greedy_dij = false := by rw [hg]; simp
  have hguard : ¬ (max 0 (max (riemann_data_from_state cfg.gamma U_i n).rho
      (riemann_data_from_state cfg.gamma U_j n).rho * cfg.greedy_threshold -
      min (riemann_data_from_state cfg.gamma U_i n).rho
        (riemann_data_from_state cfg.gamma U_j n).rho + cfg.machine_eps) = 0) := hact
  have hL : (compute_from_states limit flux cfg U_i U_j n hd_i).lambda_max =
      min (lambda_greedy limit flux cfg U_i U_j n hd_i)
        (greedy_lambda_max cfg U_i U_j n) := by
    simp only [compute_from_states]
    rw [if_neg hgne, if_neg hguard]
    rfl
  refine ⟨hL, ?_⟩
  rw [hL]
  have hR : (compute_from_states limit flux { cfg with greedy_dij := false }
      U_i U_j n hd_i).lambda_max = greedy_lambda_max cfg U_i U_j n := by
    simp only [compute_from_states]
    rw [if_pos trivial]
    rw [compute_greedy_flag_shape cfg]
    rfl
  rw [hR]
  exact min_le_right _ _

/-- C3 witness: the greedy bound property instantiated in one dimension
at `U_i = (1, (0), 5)`, `U_j = (2, (0), 5)` with unit direction `(1)`,
threshold `1`, machine epsilon `0`, and a constant external limiter. -/
theorem greedy_never_enlarges_witness :
    (compute_from_states (fun _ _ _ _ x => x) (fun _ _ _ => 0)
          ⟨7/5, 1, 0, true, 1, false, 0⟩ ⟨1, ![0], 5⟩ ⟨2, ![0], 5⟩ ![1] 0).lambda_max =
        min (lambda_greedy (fun _ _ _ _ x => x) (fun _ _ _ => 0)
            ⟨7/5, 1, 0, true, 1, false, 0⟩ ⟨1, ![0], 5⟩ ⟨2, ![0], 5⟩ ![1] 0)
          (greedy_lambda_max ⟨7/5, 1, 0, true, 1, false, 0⟩
            ⟨1, ![0], 5⟩ ⟨2, ![0], 5⟩ ![1]) ∧
      (compute_from_states (fun _ _ _ _ x => x) (fun _ _ _ => 0)
          ⟨7/5, 1, 0, true, 1, false, 0⟩ ⟨1, ![0], 5⟩ ⟨2, ![0], 5⟩ ![1] 0).lambda_max ≤
        (compute_from_states (fun _ _ _ _ x => x) (fun _ _ _ => 0)
          ⟨7/5, 1, 0, false, 1, false, 0⟩ ⟨1, ![0], 5⟩ ⟨2, ![0], 5⟩ ![1] 0).lambda_max :=
  greedy_never_enlarges (fun _ _ _ _ x => x) (fun _ _ _ => 0)
    ⟨7/5, 1, 0, true, 1, false, 0⟩ ⟨1, ![0], 5⟩ ⟨2, ![0], 5⟩ ![1] 0 rfl
    (by
      rw [greedy_active_iff_pos]
      simp only [riemann_data_from_state]
      norm_num)

/-- C8 (amended): the greedy minimizer runs only when greedy mode is
enabled and the guard `max(0, rho_max * threshold - rho_min +
machine_eps)` is nonzero, which is equivalent to the density contrast
`(rho_max - rho_min)/rho_max` exceeding `1 - threshold -
machine_eps/rho_max` — the complement of the configured parameter,
offset by machine epsilon — not the configured threshold itself (see the
counterexample); for every input failing the guard, the non-greedy
result triple is returned unchanged. -/
theorem greedy_threshold_guard {d : ℕ}
    (limit : ℝ × ℝ × ℝ × ℝ × ℝ → ConservedState d → (Fin (d + 2) → ℝ) → ℝ → ℝ → ℝ)
    (flux : ConservedState d → Fin (d + 2) → Fin d → ℝ)
    (cfg : RiemannSolverConfig) (U_i U_j : ConservedState d)
    (n : Fin d → ℝ) (hd_i : ℝ) (hg : cfg.greedy_dij = true)
    (hri : 0 < U_i.rho) (hrj : 0 < U_j.rho) :
    (greedy_active cfg (riemann_data_from_state cfg.gamma U_i n)
        (riemann_data_from_state cfg.gamma U_j n) ↔
      1 - cfg.greedy_threshold - cfg.machine_eps / max U_i.rho U_j.rho <
        (max U_i.rho U_j.rho - min U_i.rho U_j.rho) / max U_i.rho U_j.rho) ∧
      (¬ greedy_active cfg (riemann_data_from_state cfg.gamma U_i n)
          (riemann_data_from_state cfg.gamma U_j n) →
        compute_from_states limit flux cfg U_i U_j n hd_i =
          compute { cfg with greedy_dij := false }
            (riemann_data_from_state cfg.gamma U_i n)
            (riemann_data_from_state cfg.gamma U_j n)) := by
  have hmax : (0:ℝ) < max U_i.rho U_j.rho := lt_max_of_lt_left hri
  constructor
  · rw [greedy_active_iff_pos]
    rw [show (riemann_data_from_state cfg.gamma U_i n).rho = U_i.rho from rfl,
      show (riemann_data_from_state cfg.gamma U_j n).rho = U_j.rho from rfl]
    have key : (max U_i.rho U_j.rho - min U_i.rho U_j.rho) / max U_i.rho U_j.rho -
        (1 - cfg.greedy_threshold - cfg.machine_eps / max U_i.rho U_j.rho) =
        (max U_i.rho U_j.rho * cfg.greedy_threshold - min U_i.rho U_j.rho +
          cfg.machine_eps) / max U_i.rho U_j.rho := by
      field_simp
      ring
    constructor
    · intro h
      rw [← sub_pos, key]
      exact div_pos h hmax
    · intro h
      have h2 := sub_pos.mpr h
      rw [key] at h2
      have h3 := mul_pos h2 hmax
      rw [div_mul_cancel₀ _ hmax.ne'] at h3
      simpa using h3
  · intro hact
    have hskip : max 0 (max (riemann_data_from_state cfg.gamma U_i n).rho
        (riemann_data_from_state cfg.gamma U_j n).rho * cfg.greedy_threshold -
        min (riemann_data_from_state cfg.gamma U_i n).rho
          (riemann_data_from_state cfg.gamma U_j n).rho + cfg.machine_eps) = 0 :=
      not_not.mp hact
    have hgne : ¬ cfg.greedy_dij = false := by rw [hg]; simp
    simp only [compute_from_states]
    rw [if_neg hgne, if_pos hskip]
    exact (compute_greedy_flag_shape cfg _ _).symm

/-- C8 witness: the guard characterization instantiated in one dimension
at `U_i = (1, (0), 5)`, `U_j = (2, (0), 5)` with threshold `1/2`,
machine epsilon `0`, and a constant external limiter. -/
theorem greedy_threshold_guard_witness :
    (greedy_active ⟨7/5, 1, 0, true, 1/2, false, 0⟩
        (riemann_data_from_state (7/5) ⟨1, ![0], 5⟩ ![1])
        (riemann_data_from_state (7/5) ⟨2, ![0], 5⟩ ![1]) ↔
      1 - 1/2 - 0 / max (1:ℝ) 2 <
        (max (1:ℝ) 2 - min (1:ℝ) 2) / max (1:ℝ) 2) ∧
      (¬ greedy_active ⟨7/5, 1, 0, true, 1/2, false, 0⟩
          (riemann_data_from_state (7/5) ⟨1, ![0], 5⟩ ![1])
          (riemann_data_from_state (7/5) ⟨2, ![0], 5⟩ ![1]) →
        compute_from_states (fun _ _ _ _ x => x) (fun _ _ _ => 0)
            ⟨7/5, 1, 0, true, 1/2, false, 0⟩ ⟨1, ![0], 5⟩ ⟨2, ![0], 5⟩ ![1] 0 =
          compute ⟨7/5, 1, 0, false, 1/2, false, 0⟩
            (riemann_data_from_state (7/5) ⟨1, ![0], 5⟩ ![1])
            (riemann_data_from_state (7/5) ⟨2, ![0], 5⟩ ![1])) :=
  greedy_threshold_guard (fun _ _ _ _ x => x) (fun _ _ _ => 0)
    ⟨7/5, 1, 0, true, 1/2, false, 0⟩ ⟨1, ![0], 5⟩ ⟨2, ![0], 5⟩ ![1] 0 rfl
    (by norm_num) (by norm_num)

/-- C8 counterexample: with the configured threshold parameter `1` and
machine epsilon `0`, the guard activates for the admissible primitive
states with densities `1` and `1/2`, although their density contrast
`1/2` does not exceed the configured threshold `1`: the parameter enters
the guard as its complement, not as a contrast threshold. -/
theorem greedy_threshold_guard_cex :
    greedy_active ⟨7/5, 1, 0, true, 1, false, 0⟩ ⟨1, 0, 1, 1⟩ ⟨1/2, 0, 1, 1⟩ ∧
      ¬ ((⟨7/5, 1, 0, true, 1, false, 0⟩ : RiemannSolverConfig).greedy_threshold <
        (max (1:ℝ) (1/2) - min (1:ℝ) (1/2)) / max (1:ℝ) (1/2)) := by
  constructor
  · rw [greedy_active_iff_pos]
    norm_num
  · norm_num

/-- C10: for every conserved state with positive density and every
unit-norm direction, the projected Riemann data keeps the density equal
to `U[0]` and the pressure equal to the pressure of the original
multi-dimensional state: subtracting the transverse kinetic energy
preserves the internal energy exactly. -/
theorem riemann_data_preserves_density_pressure {d : ℕ} (gamma : ℝ)
    (U : ConservedState d) (n : Fin d → ℝ)
    (hrho : 0 < U.rho) (hn : ∑ i, n i ^ 2 = 1) :
    (riemann_data_from_state gamma U n).rho = U.rho ∧
      (riemann_data_from_state gamma U n).p = pressureN gamma U := by
  refine ⟨rfl, ?_⟩
  simp only [riemann_data_from_state, pressure1, pressureN]
  have hperp : (∑ i, (U.m i - (∑ j, n j * U.m j) * n i) ^ 2) =
      (∑ i, U.m i ^ 2) - (∑ j, n j * U.m j) ^ 2 := by
    calc (∑ i, (U.m i - (∑ j, n j * U.m j) * n i) ^ 2)
        = ∑ i, (U.m i ^ 2 - 2 * (∑ j, n j * U.m j) * (n i * U.m i) +
            (∑ j, n j * U.m j) ^ 2 * n i ^ 2) :=
          Finset.sum_congr rfl fun i _ => by ring
      _ = (∑ i, U.m i ^ 2) - 2 * (∑ j, n j * U.m j) * (∑ i, n i * U.m i) +
            (∑ j, n j * U.m j) ^ 2 * (∑ i, n i ^ 2) := by
          rw [Finset.sum_add_distrib, Finset.sum_sub_distrib, ← Finset.mul_sum,
            ← Finset.mul_sum]
      _ = (∑ i, U.m i ^ 2) - (∑ j, n j * U.m j) ^ 2 := by
          rw [hn]
          ring
  rw [hperp]
  ring

/-- C10 witness: the projection at `d = 2`, `U = (1, (3, 4), 20)`, unit
direction `(3/5, 4/5)` and `gamma = 7/5`. -/
theorem riemann_data_preserves_density_pressure_witness :
    (riemann_data_from_state (7/5) (⟨1, ![3, 4], 20⟩ : ConservedState 2)
        ![3/5, 4/5]).rho = (1:ℝ) ∧
      (riemann_data_from_state (7/5) (⟨1, ![3, 4], 20⟩ : ConservedState 2)
        ![3/5, 4/5]).p = pressureN (7/5) (⟨1, ![3, 4], 20⟩ : ConservedState 2) :=
  riemann_data_preserves_density_pressure (7/5) ⟨1, ![3, 4], 20⟩ ![3/5, 4/5]
    (by norm_num)
    (by
      rw [Fin.sum_univ_two]
      norm_num)

end

end Ryujin
